import Mathlib

set_option maxHeartbeats 1000000

/-!
Shallow embedding of the Fabric-Conf-2024-Build-AI-Apps notebooks.

The repository consists of four Jupyter notebooks that glue Azure Cosmos DB
and Azure OpenAI SDK calls together.  External services (the database, the
embedding endpoint, the chat completion endpoint, the JSON serializer of the
standard library) are modelled as oracle function parameters; the code of the
notebooks themselves is translated directly into the executable definitions
below.  Embedding vectors are lists of numbers whose entries are never
inspected by any repository code; they are modelled as lists of integers.
-/

/-- Model of an embedding vector.  No notebook code inspects its entries. -/
abbrev Vec := List Int

/-- Model of a BSON or JSON value as it appears in documents and pipelines. -/
inductive Bson where
  | str (s : String)
  | num (n : Nat)
  | bool (b : Bool)
  | vec (v : Vec)
  | obj (fields : List (String × Bson))

/-- Python exceptions that the notebook helper functions can raise: an error
raised by an SDK call, or a list index out of range. -/
inductive PyError where
  | api (msg : String)
  | indexError
deriving DecidableEq

/-- Argument accepted by the OpenAI embeddings call: a single string or a
list of strings. -/
inductive PyInput where
  | str (s : String)
  | list (l : List String)
deriving DecidableEq

/-- One element of the data array of an embeddings API response. -/
structure EmbeddingDatum where
  embedding : Vec
deriving DecidableEq

/-- Model of the embeddings API response after model_dump. -/
structure EmbeddingResponse where
  data : List EmbeddingDatum
deriving DecidableEq

/-- Oracle for the embeddings endpoint: attempt number and input to outcome.
Distinct attempt numbers model repeated calls of the same request. -/
abbrev EmbedApi := Nat → PyInput → Except PyError EmbeddingResponse

/-- One step of the tenacity retry loop: run the current attempt; on failure
retry with the next attempt number while retries remain, otherwise let the
error of the last attempt propagate. -/
def retryGo {E A : Type} (f : Nat → Except E A) : Nat → Nat → Except E A
  | attempt, 0 =>
    match f attempt with
    | Except.ok a => Except.ok a
    | Except.error e => Except.error e
  | attempt, r + 1 =>
    match f attempt with
    | Except.ok a => Except.ok a
    | Except.error _ => retryGo f (attempt + 1) r

/-- Model of the tenacity retry decorator with stop_after_attempt: run up to
stop attempts, returning the first success or the error of the last attempt. -/
def retryStopAfterAttempt {E A : Type} (stop : Nat) (f : Nat → Except E A) :
    Except E A :=
  retryGo f 0 (stop - 1)

/-- Model of the Python str.lower method (ASCII lowercasing); written with
structural recursion so that concrete values reduce. -/
def pyLower (s : String) : String := String.mk (s.data.map Char.toLower)

namespace RagChat

/-- Item document of the products collection as the chat notebook reads it:
title, content and category plus the stored contentVector. -/
structure ItemDoc where
  title : String
  content : String
  category : String
  contentVector : Vec
deriving DecidableEq

/-- Similarity score returned by the database; opaque to the notebook. -/
abbrev Score := Int

/-- One element of the aggregation output: the projected similarity score
and the whole stored document. -/
structure SearchResult where
  similarityScore : Score
  document : ItemDoc
deriving DecidableEq

/-- Chat message sent to the completions API. -/
structure Message where
  role : String
  content : String
deriving DecidableEq

/-- Message part of one choice of a chat completion response. -/
structure ChatMessage where
  content : String
deriving DecidableEq

/-- One choice of a chat completion response. -/
structure Choice where
  message : ChatMessage
deriving DecidableEq

/-- Usage section of a chat completion response. -/
structure Usage where
  completion_tokens : Nat
  prompt_tokens : Nat
  total_tokens : Nat
deriving DecidableEq

/-- Model of the chat completion response after model_dump. -/
structure ChatResponse where
  choices : List Choice
  usage : Usage
  model : String
deriving DecidableEq

/-- Document built by cache_generation for the cache collection.  Field names
follow the keys of the dict literal in the notebook. -/
structure CacheDoc where
  prompt : String
  completion : String
  completionTokens : String
  promptTokens : String
  totalTokens : String
  model : String
  vectorContent : Vec
deriving DecidableEq

/-- Wire representation of a cache document: its fields as key and value
pairs, in the order the dict literal of the notebook lists them. -/
def CacheDoc.fields (d : CacheDoc) : List (String × Bson) :=
  [("prompt", Bson.str d.prompt),
   ("completion", Bson.str d.completion),
   ("completionTokens", Bson.str d.completionTokens),
   ("promptTokens", Bson.str d.promptTokens),
   ("totalTokens", Bson.str d.totalTokens),
   ("model", Bson.str d.model),
   ("vectorContent", Bson.vec d.vectorContent)]

/-- Cache document as stored, together with the Mongo assigned object id. -/
structure StoredCacheDoc where
  oid : Nat
  doc : CacheDoc
deriving DecidableEq

/-- State of the cache collection: stored documents in insertion order plus
the next object id (Mongo object ids grow monotonically across inserts). -/
structure CacheState where
  docs : List StoredCacheDoc
  nextId : Nat
deriving DecidableEq

/-- Model of cache.insert_one: append a single new document to the
collection, assigning the next object id. -/
def insert_one (st : CacheState) (d : CacheDoc) : CacheState :=
  { docs := st.docs ++ [{ oid := st.nextId, doc := d }], nextId := st.nextId + 1 }

/-- Projection of a cache document produced by the find projection on the
prompt and completion fields. -/
structure HistoryDoc where
  prompt : String
  completion : String
deriving DecidableEq

/-- Insert a document into a list that is sorted by descending object id. -/
def sortDescInsert (d : StoredCacheDoc) :
    List StoredCacheDoc → List StoredCacheDoc
  | [] => [d]
  | x :: xs => if x.oid ≤ d.oid then d :: x :: xs else x :: sortDescInsert d xs

/-- Model of the server side sort on the object id descending used by
get_conversation_history. -/
def sortByIdDesc : List StoredCacheDoc → List StoredCacheDoc
  | [] => []
  | x :: xs => sortDescInsert x (sortByIdDesc xs)

/-- Embedding of get_conversation_history: find all cache documents with a
projection on prompt and completion, sort by the object id descending and
limit the results to the given count. -/
def get_conversation_history (cache : List StoredCacheDoc)
    (completions : Nat := 3) : List HistoryDoc :=
  ((sortByIdDesc cache).take completions).map
    (fun item => { prompt := item.doc.prompt, completion := item.doc.completion })

/-- The fixed system prompt of generate_completion, exactly as written in the
triple quoted string of the notebook. -/
def system_prompt : String :=
  "\n    You are an intelligent assistant for Microsoft Azure services.\n    You are designed to provide helpful answers to user questions about Azure services given the information about to be provided.\n        - Only answer questions related to the information provided below, provide 3 clear suggestions in a list format.\n        - Write two lines of whitespace between each answer in the list.\n        - Only provide answers that have products that are part of Microsoft Azure and based on the content items.\n        - If you\u0027re unsure of an answer, you can say \"\"I don\u0027t know\"\" or \"\"I\u0027m not sure\"\" and recommend users search themselves.\"\n    "

/-- Message list assembled by generate_completion before the API call: the
system prompt, then one system message per conversation history document,
then the user prompt, then one system message per vector search result. -/
def generate_completion_messages (cache : List StoredCacheDoc)
    (vector_search_results : List SearchResult) (user_prompt : String) :
    List Message :=
  let messages : List Message := [{ role := "system", content := system_prompt }]
  let conversation_history := get_conversation_history cache 3
  let messages := messages ++ conversation_history.map
    (fun item => { role := "system", content := item.prompt ++ " " ++ item.completion })
  let messages := messages ++ [{ role := "user", content := user_prompt }]
  let messages := messages ++ vector_search_results.map
    (fun item => { role := "system", content := item.document.content })
  messages

/-- Embedding of generate_completion: assemble the message list and pass it
to the chat completions endpoint, modelled by the chat_api oracle. -/
def generate_completion (chat_api : List Message → ChatResponse)
    (cache : List StoredCacheDoc) (vector_search_results : List SearchResult)
    (user_prompt : String) : ChatResponse :=
  chat_api (generate_completion_messages cache vector_search_results user_prompt)

/-- Embedding of vector_search: build the two stage aggregation pipeline and
hand it to the database, modelled by the aggregate oracle over the items
collection; the resulting cursor is returned unmodified. -/
def vector_search (aggregate : List ItemDoc → List Bson → List SearchResult)
    (collection : List ItemDoc) (query_embedding : Vec)
    (num_results : Nat := 3) : List SearchResult :=
  let pipeline : List Bson :=
    [Bson.obj [("$search", Bson.obj
        [("cosmosSearch", Bson.obj
            [("vector", Bson.vec query_embedding),
             ("path", Bson.str "contentVector"),
             ("k", Bson.num num_results)]),
         ("returnStoredSource", Bson.bool true)])],
     Bson.obj [("$project", Bson.obj
        [("similarityScore", Bson.obj [("$meta", Bson.str "searchScore")]),
         ("document", Bson.str "$$ROOT")])]]
  let results := aggregate collection pipeline
  results

/-- Embedding of generate_embeddings from the chat notebook: one embeddings
API call (the retry decorator above it is commented out in the source), then
return the embedding of the first element of the data array. -/
def generate_embeddings (api : EmbedApi) (text : PyInput) : Except PyError Vec :=
  match api 0 text with
  | Except.error e => Except.error e
  | Except.ok response =>
    match response.data with
    | [] => Except.error PyError.indexError
    | d :: _ => Except.ok d.embedding

/-- Embedding of cache_generation: build the cache document from the user
prompt, the completion response and the query embedding.  The resulting
document is the single argument handed to cache.insert_one; indexing the
first choice raises when the choices list is empty. -/
def cache_generation (user_prompt : String) (user_embeddings : Vec)
    (response : ChatResponse) : Except PyError CacheDoc :=
  match response.choices with
  | [] => Except.error PyError.indexError
  | choice :: _ =>
    Except.ok
      { prompt := user_prompt,
        completion := choice.message.content,
        completionTokens := toString response.usage.completion_tokens,
        promptTokens := toString response.usage.prompt_tokens,
        totalTokens := toString response.usage.total_tokens,
        model := response.model,
        vectorContent := user_embeddings }

/-- Observable steps of one iteration of the interactive loop, in execution
order: embedding call, vector search, completion call with the assembled
messages, and the insert into the cache collection. -/
inductive Event where
  | embed (text : String)
  | search (vector : Vec)
  | complete (messages : List Message)
  | insert (doc : CacheDoc)
deriving DecidableEq

/-- Embedding of the interactive loop: the list of console inputs drives the
loop, which stops at the first input equal to end after lowercasing (or when
the input stream ends).  Each iteration embeds the input, runs the vector
search, calls the completions endpoint via generate_completion and finally
caches the new prompt and completion pair with insert_one.  The returned
trace records the steps in execution order. -/
def qa_loop (embed : String → Vec)
    (aggregate : List ItemDoc → List Bson → List SearchResult)
    (collection : List ItemDoc) (chat : List Message → ChatResponse) :
    List String → CacheState → Except PyError (List Event × CacheState)
  | [], st => Except.ok ([], st)
  | user_input :: rest, st =>
    if pyLower user_input == "end" then Except.ok ([], st)
    else
      let user_embeddings := embed user_input
      let search_results := vector_search aggregate collection user_embeddings
      let messages := generate_completion_messages st.docs search_results user_input
      let completions_results := generate_completion chat st.docs search_results user_input
      match cache_generation user_input user_embeddings completions_results with
      | Except.error e => Except.error e
      | Except.ok doc =>
        Except.map
          (fun r =>
            (Event.embed user_input :: Event.search user_embeddings ::
               Event.complete messages :: Event.insert doc :: r.1, r.2))
          (qa_loop embed aggregate collection chat rest (insert_one st doc))

/-- Documents inserted into the cache collection along a trace. -/
def insertedDocs (events : List Event) : List CacheDoc :=
  events.filterMap fun e =>
    match e with
    | Event.insert d => some d
    | _ => none

/-- Whether an event is an embedding call. -/
def isEmbedEvent : Event → Bool
  | Event.embed _ => true
  | _ => false

end RagChat

namespace VectorizeLoad

/-- JSON object parsed from the blob, as an ordered list of key value pairs. -/
abbrev Obj := List (String × Bson)

/-- Python dict assignment: replace the value of an existing key in place,
otherwise append the new key at the end. -/
def setField (obj : Obj) (key : String) (v : Bson) : Obj :=
  if obj.any (fun kv => kv.1 == key)
  then obj.map (fun kv => if kv.1 == key then (key, v) else kv)
  else obj ++ [(key, v)]

/-- Embedding of generate_embeddings from the vectorize and load notebook:
its body is identical to the chat notebook version. -/
def generate_embeddings (api : EmbedApi) (text : PyInput) : Except PyError Vec :=
  match api 0 text with
  | Except.error e => Except.error e
  | Except.ok response =>
    match response.data with
    | [] => Except.error PyError.indexError
    | d :: _ => Except.ok d.embedding

/-- Embedding of the ingestion loop: for each parsed object, serialize it,
generate an embedding of the serialization, store the embedding under the
contentVector key and insert the object into the products collection with
insert_one.  The dumps and embed oracles model json.dumps and a successful
embeddings call. -/
def ingestion_loop (dumps : Obj → String) (embed : String → Vec)
    (products_collection : List Obj) : List Obj → List Obj
  | [] => products_collection
  | obj :: objects =>
    let sObject := dumps obj
    let vectorArray := embed sObject
    let obj2 := setField obj "contentVector" (Bson.vec vectorArray)
    ingestion_loop dumps embed (products_collection ++ [obj2]) objects

end VectorizeLoad

namespace MovieLens

/-- Cosmos DB NoSQL document: the id partition key plus the remaining body. -/
structure CosmosDoc where
  id : String
  body : List (String × Bson)

/-- Model of container.upsert_item: replace the stored document with the same
id when one exists, otherwise insert the document at the end. -/
def upsert_item (container : List CosmosDoc) (body : CosmosDoc) :
    List CosmosDoc :=
  if container.any (fun d => d.id == body.id)
  then container.map (fun d => if d.id == body.id then body else d)
  else container ++ [body]

/-- Minimum wait in seconds of the wait_random_exponential retry policy on
generate_embeddings in the MovieLens notebook. -/
def wait_random_exponential_min : Nat := 1

/-- Maximum wait in seconds of the wait_random_exponential retry policy on
generate_embeddings in the MovieLens notebook. -/
def wait_random_exponential_max : Nat := 10

/-- Attempt bound of the stop_after_attempt retry policy on
generate_embeddings in the MovieLens notebook. -/
def stop_after_attempt_count : Nat := 20

/-- One attempt of generate_embeddings from the MovieLens notebook: its body
is identical to the other notebooks, run at the given attempt number. -/
def generate_embeddings_attempt (api : EmbedApi) (text : PyInput)
    (attempt : Nat) : Except PyError Vec :=
  match api attempt text with
  | Except.error e => Except.error e
  | Except.ok response =>
    match response.data with
    | [] => Except.error PyError.indexError
    | d :: _ => Except.ok d.embedding

/-- Embedding of generate_embeddings from the MovieLens notebook: the only
retry decorated function of the repository. -/
def generate_embeddings (api : EmbedApi) (text : PyInput) : Except PyError Vec :=
  retryStopAfterAttempt stop_after_attempt_count (generate_embeddings_attempt api text)

/-- Result of running insert_data: the final container, the final counter,
the console output and the documents upserted in issue order. -/
structure InsertDataResult where
  container : List CosmosDoc
  counter : Nat
  output : List String
  upserts : List CosmosDoc

/-- Loop body of insert_data: upsert each document in order, awaiting each
call before issuing the next, increment the counter once per document and
print a progress line exactly at each multiple of 100. -/
def insert_data_loop (container : List CosmosDoc) (counter : Nat) :
    List CosmosDoc → InsertDataResult
  | [] =>
    { container := container, counter := counter,
      output := ["Upsert completed!"], upserts := [] }
  | object :: rest =>
    let container2 := upsert_item container object
    let counter2 := counter + 1
    let line :=
      if counter2 % 100 == 0
      then ["Inserted " ++ toString counter2 ++ " documents into collection."]
      else []
    let r := insert_data_loop container2 counter2 rest
    { container := r.container, counter := r.counter,
      output := line ++ r.output, upserts := object :: r.upserts }

/-- Embedding of insert_data: sequentially upsert the loaded data into the
container, starting from a zero counter. -/
def insert_data (container : List CosmosDoc) (data : List CosmosDoc) :
    InsertDataResult :=
  insert_data_loop container 0 data

end MovieLens

/-! Concrete artefacts used by witnesses. -/

/-- Concrete chat completion response used in witnesses. -/
def respW : RagChat.ChatResponse :=
  { choices := [{ message := { content := "ans" } }],
    usage := { completion_tokens := 1, prompt_tokens := 2, total_tokens := 3 },
    model := "gpt" }

/-- Concrete cache document produced by the counterexample input of the
cache schema claim. -/
def docW4 : RagChat.CacheDoc :=
  { prompt := "q", completion := "ans", completionTokens := "1",
    promptTokens := "2", totalTokens := "3", model := "gpt",
    vectorContent := [1] }

/-- Embeddings oracle that always fails, used in witnesses. -/
def apiFailW : EmbedApi := fun _ _ => Except.error (PyError.api "boom")

/-- Embeddings oracle that fails on the first attempt only, used in
witnesses. -/
def apiRetryW : EmbedApi := fun n _ =>
  if n == 0 then Except.error (PyError.api "throttle")
  else Except.ok { data := [{ embedding := [7] }] }

/-- Embeddings oracle returning two embeddings, used in witnesses. -/
def apiTwoW : EmbedApi := fun _ _ =>
  Except.ok { data := [{ embedding := [3] }, { embedding := [4] }] }

/-- Concrete embedding oracle used in witnesses. -/
def embedW : String → Vec := fun s => [(s.length : Int)]

/-- Concrete aggregation oracle used in witnesses. -/
def aggW : List RagChat.ItemDoc → List Bson → List RagChat.SearchResult :=
  fun _ _ => []

/-- Concrete chat oracle used in witnesses. -/
def chatW : List RagChat.Message → RagChat.ChatResponse := fun _ => respW

/-- Concrete cache document used in the trace witness. -/
def docW3 : RagChat.CacheDoc :=
  { prompt := "hi", completion := "ans", completionTokens := "1",
    promptTokens := "2", totalTokens := "3", model := "gpt",
    vectorContent := [2] }

/-- Concrete message list of the trace witness. -/
def msgsW3 : List RagChat.Message :=
  [{ role := "system", content := RagChat.system_prompt },
   { role := "user", content := "hi" }]

/-- Concrete loop trace used in witnesses. -/
def trW3 : List RagChat.Event :=
  [RagChat.Event.embed "hi", RagChat.Event.search [2],
   RagChat.Event.complete msgsW3, RagChat.Event.insert docW3]

/-- Concrete final cache state of the trace witness. -/
def finW3 : RagChat.CacheState :=
  { docs := [{ oid := 0, doc := docW3 }], nextId := 1 }

/-- Concrete cache documents used in the prompt assembly witness. -/
def docA : RagChat.CacheDoc :=
  { prompt := "p1", completion := "c1", completionTokens := "1",
    promptTokens := "1", totalTokens := "2", model := "gpt",
    vectorContent := [1] }

/-- Second concrete cache document of the prompt assembly witness. -/
def docB : RagChat.CacheDoc :=
  { prompt := "p2", completion := "c2", completionTokens := "1",
    promptTokens := "1", totalTokens := "2", model := "gpt",
    vectorContent := [2] }

/-- Concrete cache collection of the prompt assembly witness. -/
def cacheW : List RagChat.StoredCacheDoc :=
  [{ oid := 0, doc := docA }, { oid := 1, doc := docB }]

/-- Concrete item document of the prompt assembly witness. -/
def itemW : RagChat.ItemDoc :=
  { title := "t", content := "ct", category := "cat", contentVector := [5] }

/-- Concrete search results of the prompt assembly witness. -/
def resultsW : List RagChat.SearchResult :=
  [{ similarityScore := 1, document := itemW }]

/-- Concrete serializer oracle of the ingestion witness. -/
def dumpsW : VectorizeLoad.Obj → String := fun _ => "s"

/-- Concrete parsed objects of the ingestion witness. -/
def objectsW : List VectorizeLoad.Obj := [[("a", Bson.num 1)]]

/-- Concrete loaded documents of the upsert witness. -/
def dataW : List MovieLens.CosmosDoc :=
  [{ id := "id1", body := [] }, { id := "id2", body := [] }]

/-! Supporting lemmas. -/

/-- A successful attempt stops the retry loop at once. -/
theorem retryGo_ok {E A : Type} (f : Nat → Except E A) (k r : Nat) (a : A)
    (h : f k = Except.ok a) : retryGo f k r = Except.ok a := by
  cases r <;> simp [retryGo, h]

/-- When every allowed attempt fails, the retry loop returns the outcome of
the last allowed attempt. -/
theorem retryGo_all_error {E A : Type} (f : Nat → Except E A) (r : Nat) :
    ∀ k, (∀ j, k ≤ j → j ≤ k + r → ∃ e, f j = Except.error e) →
      retryGo f k r = f (k + r) := by
  induction r with
  | zero =>
    intro k h
    obtain ⟨e, he⟩ := h k (Nat.le_refl k) (by omega)
    simp [retryGo, he]
  | succ r ih =>
    intro k h
    obtain ⟨e, he⟩ := h k (Nat.le_refl k) (by omega)
    have hstep : retryGo f k (r + 1) = retryGo f (k + 1) r := by
      simp [retryGo, he]
    rw [hstep, ih (k + 1) (fun j hj1 hj2 => h j (by omega) (by omega))]
    congr 1
    omega

/-- The retry loop returns the first successful attempt. -/
theorem retryGo_first_ok {E A : Type} (f : Nat → Except E A) (v : A) (i : Nat) :
    ∀ k r, i ≤ r → (∀ j, k ≤ j → j < k + i → ∃ e, f j = Except.error e) →
      f (k + i) = Except.ok v → retryGo f k r = Except.ok v := by
  induction i with
  | zero =>
    intro k r _ _ hok
    exact retryGo_ok f k r v (by simpa using hok)
  | succ i ih =>
    intro k r hle hfail hok
    obtain ⟨e, he⟩ := hfail k (Nat.le_refl k) (by omega)
    obtain ⟨r2, rfl⟩ : ∃ r2, r = r2 + 1 := ⟨r - 1, by omega⟩
    have hstep : retryGo f k (r2 + 1) = retryGo f (k + 1) r2 := by
      simp [retryGo, he]
    rw [hstep]
    exact ih (k + 1) r2 (by omega)
      (fun j hj1 hj2 => hfail j (by omega) (by omega))
      (by rw [show k + 1 + i = k + (i + 1) from by omega]; exact hok)

/-- Upserting a document whose id is absent from the container appends it. -/
theorem upsert_item_of_new (container : List MovieLens.CosmosDoc)
    (body : MovieLens.CosmosDoc)
    (h : body.id ∉ container.map MovieLens.CosmosDoc.id) :
    MovieLens.upsert_item container body = container ++ [body] := by
  unfold MovieLens.upsert_item
  rw [if_neg]
  intro hany
  rw [List.any_eq_true] at hany
  obtain ⟨d, hd, he⟩ := hany
  exact h (List.mem_map.mpr ⟨d, hd, by simpa using he⟩)

/-- The counter of the insert_data loop grows by the number of documents. -/
theorem insert_data_loop_counter (l : List MovieLens.CosmosDoc) :
    ∀ container counter,
      (MovieLens.insert_data_loop container counter l).counter
        = counter + l.length := by
  induction l with
  | nil => intro container counter; simp [MovieLens.insert_data_loop]
  | cons x xs ih =>
    intro container counter
    simp [MovieLens.insert_data_loop, ih]
    omega

/-- The insert_data loop issues exactly one upsert per document, in order. -/
theorem insert_data_loop_upserts (l : List MovieLens.CosmosDoc) :
    ∀ container counter,
      (MovieLens.insert_data_loop container counter l).upserts = l := by
  induction l with
  | nil => intro container counter; simp [MovieLens.insert_data_loop]
  | cons x xs ih =>
    intro container counter
    simp [MovieLens.insert_data_loop, ih]

/-- Console output of the insert_data loop: one progress line per counter
value that is a multiple of 100, then the completion line. -/
theorem insert_data_loop_output (l : List MovieLens.CosmosDoc) :
    ∀ container counter,
      (MovieLens.insert_data_loop container counter l).output
        = ((List.range' (counter + 1) l.length).filterMap fun c =>
            if c % 100 == 0
            then some ("Inserted " ++ toString c ++ " documents into collection.")
            else none)
          ++ ["Upsert completed!"] := by
  induction l with
  | nil => intro container counter; simp [MovieLens.insert_data_loop]
  | cons x xs ih =>
    intro container counter
    rw [List.length_cons, List.range'_succ]
    simp only [MovieLens.insert_data_loop, ih, List.filterMap_cons]
    by_cases h100 : (counter + 1) % 100 == 0
    · simp [h100]
    · simp only [h100]
      simp at h100
      simp [h100]

/-- When all ids are fresh and pairwise distinct, the insert_data loop
appends the documents without touching the stored ones. -/
theorem insert_data_loop_container (data : List MovieLens.CosmosDoc) :
    ∀ container counter,
      (∀ d ∈ data, d.id ∉ container.map MovieLens.CosmosDoc.id) →
      (data.map MovieLens.CosmosDoc.id).Nodup →
      (MovieLens.insert_data_loop container counter data).container
        = container ++ data := by
  induction data with
  | nil => intro container counter _ _; simp [MovieLens.insert_data_loop]
  | cons x xs ih =>
    intro container counter hdisj hnodup
    rw [List.map_cons, List.nodup_cons] at hnodup
    have hx : MovieLens.upsert_item container x = container ++ [x] :=
      upsert_item_of_new container x (hdisj x (by simp))
    simp only [MovieLens.insert_data_loop, hx]
    rw [ih (container ++ [x]) (counter + 1) ?_ hnodup.2]
    · simp
    · intro d hd
      simp only [List.map_append, List.mem_append]
      intro hmem
      rcases hmem with hmem | hmem
      · exact hdisj d (List.mem_cons_of_mem x hd) hmem
      · simp at hmem
        exact hnodup.1 (by rw [← hmem]; exact List.mem_map_of_mem _ hd)

/-- The ingestion loop appends one vectorized object per parsed object. -/
theorem ingestion_loop_spec (dumps : VectorizeLoad.Obj → String)
    (embed : String → Vec) (objects : List VectorizeLoad.Obj) :
    ∀ coll, VectorizeLoad.ingestion_loop dumps embed coll objects
      = coll ++ objects.map (fun obj =>
          VectorizeLoad.setField obj "contentVector" (Bson.vec (embed (dumps obj)))) := by
  induction objects with
  | nil => intro coll; simp [VectorizeLoad.ingestion_loop]
  | cons o os ih =>
    intro coll
    simp [VectorizeLoad.ingestion_loop, ih]

/-- Inserting a document whose id is below every id of a descending list
places it at the end. -/
theorem sortDescInsert_eq_append (d : RagChat.StoredCacheDoc) :
    ∀ ys : List RagChat.StoredCacheDoc, (∀ y ∈ ys, d.oid < y.oid) →
      RagChat.sortDescInsert d ys = ys ++ [d] := by
  intro ys
  induction ys with
  | nil => intro _; rfl
  | cons x xs ih =>
    intro h
    have hx : d.oid < x.oid := h x (by simp)
    simp only [RagChat.sortDescInsert, if_neg (Nat.not_le.mpr hx), List.cons_append]
    rw [ih (fun y hy => h y (List.mem_cons_of_mem x hy))]

/-- Sorting by descending object id reverses a list whose object ids grow
strictly along insertion order. -/
theorem sortByIdDesc_eq_reverse (l : List RagChat.StoredCacheDoc)
    (h : (l.map RagChat.StoredCacheDoc.oid).Pairwise (· < ·)) :
    RagChat.sortByIdDesc l = l.reverse := by
  induction l with
  | nil => rfl
  | cons x xs ih =>
    rw [List.map_cons, List.pairwise_cons] at h
    obtain ⟨hx, hxs⟩ := h
    rw [RagChat.sortByIdDesc, ih hxs, List.reverse_cons]
    apply sortDescInsert_eq_append
    intro y hy
    exact hx y.oid (List.mem_map_of_mem _ (List.mem_reverse.mp hy))

/-- C1.  For every user prompt and every state of the cache collection whose
object ids grow along insertion order, generate_completion builds its message
list as exactly: one system message with the fixed system prompt, then one
system message per document of get_conversation_history with limit 3 (the at
most 3 most recently inserted cache documents, most recent first, rendered as
the prompt, a space, and the completion), then one user message with the user
prompt, then one system message per vector search result with the content of
its document; the completions API receives exactly this concatenation. -/
theorem C1_prompt_assembly
    (chat_api : List RagChat.Message → RagChat.ChatResponse)
    (cache : List RagChat.StoredCacheDoc)
    (vector_search_results : List RagChat.SearchResult) (user_prompt : String)
    (hids : (cache.map RagChat.StoredCacheDoc.oid).Pairwise (· < ·)) :
    RagChat.generate_completion_messages cache vector_search_results user_prompt
      = { role := "system", content := RagChat.system_prompt }
        :: (((cache.reverse.take 3).map fun d =>
              { role := "system",
                content := d.doc.prompt ++ " " ++ d.doc.completion })
          ++ { role := "user", content := user_prompt }
          :: vector_search_results.map (fun item =>
              { role := "system", content := item.document.content })) ∧
    RagChat.generate_completion chat_api cache vector_search_results user_prompt
      = chat_api
        ({ role := "system", content := RagChat.system_prompt }
          :: (((cache.reverse.take 3).map fun d =>
                { role := "system",
                  content := d.doc.prompt ++ " " ++ d.doc.completion })
            ++ { role := "user", content := user_prompt }
            :: vector_search_results.map (fun item =>
                { role := "system", content := item.document.content }))) := by
  have hmsgs : RagChat.generate_completion_messages cache vector_search_results user_prompt
      = { role := "system", content := RagChat.system_prompt }
        :: (((cache.reverse.take 3).map fun d =>
              { role := "system",
                content := d.doc.prompt ++ " " ++ d.doc.completion })
          ++ { role := "user", content := user_prompt }
          :: vector_search_results.map (fun item =>
              { role := "system", content := item.document.content })) := by
    unfold RagChat.generate_completion_messages RagChat.get_conversation_history
    rw [sortByIdDesc_eq_reverse cache hids]
    simp [List.map_map, Function.comp_def]
  exact ⟨hmsgs, by unfold RagChat.generate_completion; rw [hmsgs]⟩

/-- Building the cache document succeeds exactly on the first choice of the
completion response. -/
theorem cache_generation_eq_ok (user_prompt : String) (v : Vec)
    (response : RagChat.ChatResponse) (choice : RagChat.Choice)
    (cs : List RagChat.Choice) (h : response.choices = choice :: cs) :
    RagChat.cache_generation user_prompt v response = Except.ok
      { prompt := user_prompt,
        completion := choice.message.content,
        completionTokens := toString response.usage.completion_tokens,
        promptTokens := toString response.usage.prompt_tokens,
        totalTokens := toString response.usage.total_tokens,
        model := response.model,
        vectorContent := v } := by
  unfold RagChat.cache_generation
  rw [h]

/-- The prompt stored by cache_generation is the user prompt. -/
theorem cache_generation_prompt (p : String) (v : Vec)
    (r : RagChat.ChatResponse) (d : RagChat.CacheDoc)
    (h : RagChat.cache_generation p v r = Except.ok d) : d.prompt = p := by
  unfold RagChat.cache_generation at h
  cases hc : r.choices with
  | nil => rw [hc] at h; simp at h
  | cons c cs =>
    rw [hc] at h
    simp only [Except.ok.injEq] at h
    rw [← h]

/-- The loop stops at once on an input equal to end after lowercasing. -/
theorem qa_loop_stop (embed : String → Vec)
    (aggregate : List RagChat.ItemDoc → List Bson → List RagChat.SearchResult)
    (collection : List RagChat.ItemDoc)
    (chat : List RagChat.Message → RagChat.ChatResponse)
    (user_input : String) (rest : List String) (st : RagChat.CacheState)
    (h : pyLower user_input = "end") :
    RagChat.qa_loop embed aggregate collection chat (user_input :: rest) st
      = Except.ok ([], st) := by
  simp [RagChat.qa_loop, h]

/-- Unfolding of one iteration of the loop on a non terminating input. -/
theorem qa_loop_cons_ne (embed : String → Vec)
    (aggregate : List RagChat.ItemDoc → List Bson → List RagChat.SearchResult)
    (collection : List RagChat.ItemDoc)
    (chat : List RagChat.Message → RagChat.ChatResponse)
    (user_input : String) (rest : List String) (st : RagChat.CacheState)
    (hne : pyLower user_input ≠ "end") :
    RagChat.qa_loop embed aggregate collection chat (user_input :: rest) st
      = match RagChat.cache_generation user_input (embed user_input)
          (RagChat.generate_completion chat st.docs
            (RagChat.vector_search aggregate collection (embed user_input)) user_input) with
        | Except.error e => Except.error e
        | Except.ok doc =>
          Except.map (fun r =>
            (RagChat.Event.embed user_input ::
             RagChat.Event.search (embed user_input) ::
             RagChat.Event.complete (RagChat.generate_completion_messages st.docs
               (RagChat.vector_search aggregate collection (embed user_input)) user_input) ::
             RagChat.Event.insert doc :: r.1, r.2))
            (RagChat.qa_loop embed aggregate collection chat rest
              (RagChat.insert_one st doc)) := by
  rw [RagChat.qa_loop]
  rw [if_neg (by simpa using hne)]

/-- Successful map on an Except value comes from a successful value. -/
theorem except_map_ok {E A B : Type} (f : A → B) (x : Except E A) (y : B)
    (h : Except.map f x = Except.ok y) : ∃ a, x = Except.ok a ∧ f a = y := by
  cases x with
  | error e => simp [Except.map] at h
  | ok a => exact ⟨a, rfl, by simpa [Except.map] using h⟩

/-- One iteration of the loop on a non terminating input whose completion
produces a cache document. -/
theorem qa_loop_cons_ok (embed : String → Vec)
    (aggregate : List RagChat.ItemDoc → List Bson → List RagChat.SearchResult)
    (collection : List RagChat.ItemDoc)
    (chat : List RagChat.Message → RagChat.ChatResponse)
    (user_input : String) (rest : List String) (st : RagChat.CacheState)
    (doc : RagChat.CacheDoc)
    (hne : pyLower user_input ≠ "end")
    (hdoc : RagChat.cache_generation user_input (embed user_input)
        (RagChat.generate_completion chat st.docs
          (RagChat.vector_search aggregate collection (embed user_input)) user_input)
      = Except.ok doc) :
    RagChat.qa_loop embed aggregate collection chat (user_input :: rest) st
      = Except.map (fun r =>
          (RagChat.Event.embed user_input ::
           RagChat.Event.search (embed user_input) ::
           RagChat.Event.complete (RagChat.generate_completion_messages st.docs
             (RagChat.vector_search aggregate collection (embed user_input)) user_input) ::
           RagChat.Event.insert doc :: r.1, r.2))
          (RagChat.qa_loop embed aggregate collection chat rest
            (RagChat.insert_one st doc)) := by
  rw [qa_loop_cons_ne embed aggregate collection chat user_input rest st hne, hdoc]

/-- One iteration of the loop on a non terminating input whose completion
response has no choices propagates the error. -/
theorem qa_loop_cons_error (embed : String → Vec)
    (aggregate : List RagChat.ItemDoc → List Bson → List RagChat.SearchResult)
    (collection : List RagChat.ItemDoc)
    (chat : List RagChat.Message → RagChat.ChatResponse)
    (user_input : String) (rest : List String) (st : RagChat.CacheState)
    (e : PyError)
    (hne : pyLower user_input ≠ "end")
    (hdoc : RagChat.cache_generation user_input (embed user_input)
        (RagChat.generate_completion chat st.docs
          (RagChat.vector_search aggregate collection (embed user_input)) user_input)
      = Except.error e) :
    RagChat.qa_loop embed aggregate collection chat (user_input :: rest) st
      = Except.error e := by
  rw [qa_loop_cons_ne embed aggregate collection chat user_input rest st hne, hdoc]

/-- Every embedding event of a loop trace names one of the inputs, and the
prompt of every inserted document is one of the inputs. -/
theorem qa_loop_event_sources (embed : String → Vec)
    (aggregate : List RagChat.ItemDoc → List Bson → List RagChat.SearchResult)
    (collection : List RagChat.ItemDoc)
    (chat : List RagChat.Message → RagChat.ChatResponse)
    (inputs : List String) :
    ∀ st tr fin,
      RagChat.qa_loop embed aggregate collection chat inputs st
        = Except.ok (tr, fin) →
      (∀ s, RagChat.Event.embed s ∈ tr → s ∈ inputs) ∧
      (∀ d, RagChat.Event.insert d ∈ tr → d.prompt ∈ inputs) := by
  induction inputs with
  | nil =>
    intro st tr fin h
    simp only [RagChat.qa_loop, Except.ok.injEq, Prod.mk.injEq] at h
    obtain ⟨h1, h2⟩ := h
    subst h1
    simp
  | cons i rest ih =>
    intro st tr fin h
    by_cases hend : pyLower i = "end"
    · rw [qa_loop_stop embed aggregate collection chat i rest st hend] at h
      simp only [Except.ok.injEq, Prod.mk.injEq] at h
      obtain ⟨h1, h2⟩ := h
      subst h1
      simp
    · cases hc : RagChat.cache_generation i (embed i)
          (RagChat.generate_completion chat st.docs
            (RagChat.vector_search aggregate collection (embed i)) i) with
      | error e =>
        rw [qa_loop_cons_error embed aggregate collection chat i rest st e hend hc] at h
        simp at h
      | ok doc =>
        rw [qa_loop_cons_ok embed aggregate collection chat i rest st doc hend hc] at h
        obtain ⟨⟨events, final⟩, hr, hfy⟩ := except_map_ok _ _ _ h
        simp only [Prod.mk.injEq] at hfy
        obtain ⟨h1, h2⟩ := hfy
        subst h2
        rw [← h1]
        obtain ⟨ihe, ihi⟩ := ih (RagChat.insert_one st doc) events final hr
        constructor
        · intro s hs
          simp only [List.mem_cons] at hs
          rcases hs with h' | h' | h' | h' | h'
          · simp only [RagChat.Event.embed.injEq] at h'
            simp [h']
          · simp at h'
          · simp at h'
          · simp at h'
          · exact List.mem_cons_of_mem i (ihe s h')
        · intro d hd
          simp only [List.mem_cons] at hd
          rcases hd with h' | h' | h' | h' | h'
          · simp at h'
          · simp at h'
          · simp at h'
          · simp only [RagChat.Event.insert.injEq] at h'
            subst h'
            have hp := cache_generation_prompt _ _ _ _ hc
            simp [hp]
          · exact List.mem_cons_of_mem i (ihi d h')

/-- Inputs after the first terminator have no effect on the loop. -/
theorem qa_loop_stops_at_end (embed : String → Vec)
    (aggregate : List RagChat.ItemDoc → List Bson → List RagChat.SearchResult)
    (collection : List RagChat.ItemDoc)
    (chat : List RagChat.Message → RagChat.ChatResponse)
    (t : String) (rest : List String) (ht : pyLower t = "end") :
    ∀ pre : List String, (∀ i ∈ pre, pyLower i ≠ "end") →
      ∀ st, RagChat.qa_loop embed aggregate collection chat (pre ++ t :: rest) st
        = RagChat.qa_loop embed aggregate collection chat pre st := by
  intro pre
  induction pre with
  | nil =>
    intro _ st
    rw [List.nil_append, qa_loop_stop embed aggregate collection chat t rest st ht]
    rfl
  | cons i is ih =>
    intro hpre st
    have hi : pyLower i ≠ "end" := hpre i (by simp)
    have ihs := ih (fun j hj => hpre j (List.mem_cons_of_mem i hj))
    rw [List.cons_append]
    cases hc : RagChat.cache_generation i (embed i)
        (RagChat.generate_completion chat st.docs
          (RagChat.vector_search aggregate collection (embed i)) i) with
    | error e =>
      rw [qa_loop_cons_error embed aggregate collection chat i (is ++ t :: rest) st e hi hc,
          qa_loop_cons_error embed aggregate collection chat i is st e hi hc]
    | ok doc =>
      rw [qa_loop_cons_ok embed aggregate collection chat i (is ++ t :: rest) st doc hi hc,
          qa_loop_cons_ok embed aggregate collection chat i is st doc hi hc,
          ihs (RagChat.insert_one st doc)]

/-- C2.  One iteration of the interactive loop on a non terminating input
performs, in this order: the embedding of the input, the vector search on
that embedding, the completion call on the assembled messages, and only then
the write of the prompt and completion pair to the cache collection; no step
is skipped and none runs out of order. -/
theorem C2_query_iteration_order (embed : String → Vec)
    (aggregate : List RagChat.ItemDoc → List Bson → List RagChat.SearchResult)
    (collection : List RagChat.ItemDoc)
    (chat : List RagChat.Message → RagChat.ChatResponse)
    (user_input : String) (rest : List String) (st : RagChat.CacheState)
    (hne : pyLower user_input ≠ "end")
    (hchoices : (RagChat.generate_completion chat st.docs
        (RagChat.vector_search aggregate collection (embed user_input))
        user_input).choices ≠ []) :
    ∃ doc : RagChat.CacheDoc,
      RagChat.cache_generation user_input (embed user_input)
          (RagChat.generate_completion chat st.docs
            (RagChat.vector_search aggregate collection (embed user_input)) user_input)
        = Except.ok doc ∧
      RagChat.qa_loop embed aggregate collection chat (user_input :: rest) st
        = Except.map (fun r =>
            (RagChat.Event.embed user_input ::
             RagChat.Event.search (embed user_input) ::
             RagChat.Event.complete (RagChat.generate_completion_messages st.docs
               (RagChat.vector_search aggregate collection (embed user_input)) user_input) ::
             RagChat.Event.insert doc :: r.1, r.2))
            (RagChat.qa_loop embed aggregate collection chat rest
              (RagChat.insert_one st doc)) := by
  cases hch : (RagChat.generate_completion chat st.docs
      (RagChat.vector_search aggregate collection (embed user_input)) user_input).choices with
  | nil => exact absurd hch hchoices
  | cons choice cs =>
    refine ⟨_, cache_generation_eq_ok user_input (embed user_input) _ choice cs hch, ?_⟩
    exact qa_loop_cons_ok embed aggregate collection chat user_input rest st _ hne
      (cache_generation_eq_ok user_input (embed user_input) _ choice cs hch)

/-- C3.  Every write of the query loop on the cache collection is the insert
of a single new document: after any successful run, the final collection is
the initial collection followed by exactly the inserted documents of the
trace, and the number of inserts equals the number of embedded inputs, one
per processed query; no existing document is updated, replaced or deleted. -/
theorem C3_cache_insert_only (embed : String → Vec)
    (aggregate : List RagChat.ItemDoc → List Bson → List RagChat.SearchResult)
    (collection : List RagChat.ItemDoc)
    (chat : List RagChat.Message → RagChat.ChatResponse)
    (inputs : List String) :
    ∀ (st : RagChat.CacheState) (tr : List RagChat.Event) (fin : RagChat.CacheState),
      RagChat.qa_loop embed aggregate collection chat inputs st = Except.ok (tr, fin) →
      (∃ newDocs, fin.docs = st.docs ++ newDocs ∧
          newDocs.map RagChat.StoredCacheDoc.doc = RagChat.insertedDocs tr) ∧
      (RagChat.insertedDocs tr).length = (tr.filter RagChat.isEmbedEvent).length := by
  induction inputs with
  | nil =>
    intro st tr fin h
    simp only [RagChat.qa_loop, Except.ok.injEq, Prod.mk.injEq] at h
    obtain ⟨h1, h2⟩ := h
    subst h1
    subst h2
    exact ⟨⟨[], by simp, by simp [RagChat.insertedDocs]⟩, by simp [RagChat.insertedDocs]⟩
  | cons i rest ih =>
    intro st tr fin h
    by_cases hend : pyLower i = "end"
    · rw [qa_loop_stop embed aggregate collection chat i rest st hend] at h
      simp only [Except.ok.injEq, Prod.mk.injEq] at h
      obtain ⟨h1, h2⟩ := h
      subst h1
      subst h2
      exact ⟨⟨[], by simp, by simp [RagChat.insertedDocs]⟩, by simp [RagChat.insertedDocs]⟩
    · cases hc : RagChat.cache_generation i (embed i)
          (RagChat.generate_completion chat st.docs
            (RagChat.vector_search aggregate collection (embed i)) i) with
      | error e =>
        rw [qa_loop_cons_error embed aggregate collection chat i rest st e hend hc] at h
        simp at h
      | ok doc =>
        rw [qa_loop_cons_ok embed aggregate collection chat i rest st doc hend hc] at h
        obtain ⟨⟨events, final⟩, hr, hfy⟩ := except_map_ok _ _ _ h
        simp only [Prod.mk.injEq] at hfy
        obtain ⟨h1, h2⟩ := hfy
        subst h2
        rw [← h1]
        obtain ⟨⟨nd, hnd1, hnd2⟩, hcount⟩ := ih (RagChat.insert_one st doc) events final hr
        refine ⟨⟨{ oid := st.nextId, doc := doc } :: nd, ?_, ?_⟩, ?_⟩
        · rw [hnd1]
          simp [RagChat.insert_one]
        · simp [RagChat.insertedDocs, hnd2]
        · simp only [RagChat.insertedDocs, RagChat.isEmbedEvent, List.filterMap_cons,
            List.filter_cons]
          simp only [RagChat.insertedDocs, RagChat.isEmbedEvent] at hcount
          simp [hcount]

/-- C9.  The loop runs its body exactly for the inputs whose lowercasing is
not end: on the first input equal to end after lowercasing the loop stops,
the remaining inputs are ignored, and the terminating input is never
embedded and never written to the cache collection. -/
theorem C9_loop_terminates_on_end (embed : String → Vec)
    (aggregate : List RagChat.ItemDoc → List Bson → List RagChat.SearchResult)
    (collection : List RagChat.ItemDoc)
    (chat : List RagChat.Message → RagChat.ChatResponse)
    (pre rest : List String) (t : String) (st : RagChat.CacheState)
    (hpre : ∀ i ∈ pre, pyLower i ≠ "end") (ht : pyLower t = "end") :
    RagChat.qa_loop embed aggregate collection chat (pre ++ t :: rest) st
      = RagChat.qa_loop embed aggregate collection chat pre st ∧
    ∀ tr fin,
      RagChat.qa_loop embed aggregate collection chat (pre ++ t :: rest) st
        = Except.ok (tr, fin) →
      RagChat.Event.embed t ∉ tr ∧
      ∀ d, RagChat.Event.insert d ∈ tr → d.prompt ≠ t := by
  have heq := qa_loop_stops_at_end embed aggregate collection chat t rest ht pre hpre st
  refine ⟨heq, ?_⟩
  intro tr fin h
  rw [heq] at h
  obtain ⟨hemb, hins⟩ := qa_loop_event_sources embed aggregate collection chat pre st tr fin h
  constructor
  · intro hmem
    exact hpre t (hemb t hmem) ht
  · intro d hd heqd
    exact hpre t (heqd ▸ hins d hd) ht

/-- C4 counterexample.  On a concrete prompt, embedding and response, the
document built by cache_generation stores the embedding under the
vectorContent key: its key list has no vector key, so the claim that the
vector is stored under a field named vector fails on the code. -/
theorem C4_vector_field_name_counterexample :
    RagChat.cache_generation "q" [1] respW = Except.ok docW4 ∧
    (RagChat.CacheDoc.fields docW4).map Prod.fst
      = ["prompt", "completion", "completionTokens", "promptTokens",
         "totalTokens", "model", "vectorContent"] ∧
    "vector" ∉ (RagChat.CacheDoc.fields docW4).map Prod.fst ∧
    ("vectorContent", Bson.vec [1]) ∈ RagChat.CacheDoc.fields docW4 := by
  refine ⟨rfl, rfl, by decide, ?_⟩
  simp [RagChat.CacheDoc.fields, docW4]

/-- C4 (amended).  Every document inserted by cache_generation contains
exactly the fields prompt (the user prompt), completion (the message content
of the first choice), the stringified completion, prompt and total token
counts of the usage of the response, model (the model of the response) and
the query embedding, the latter stored under the vectorContent field. -/
theorem C4_cache_document_schema (user_prompt : String) (emb : Vec)
    (response : RagChat.ChatResponse) (choice : RagChat.Choice)
    (cs : List RagChat.Choice) (h : response.choices = choice :: cs) :
    RagChat.cache_generation user_prompt emb response = Except.ok
      { prompt := user_prompt,
        completion := choice.message.content,
        completionTokens := toString response.usage.completion_tokens,
        promptTokens := toString response.usage.prompt_tokens,
        totalTokens := toString response.usage.total_tokens,
        model := response.model,
        vectorContent := emb } ∧
    RagChat.CacheDoc.fields
      { prompt := user_prompt,
        completion := choice.message.content,
        completionTokens := toString response.usage.completion_tokens,
        promptTokens := toString response.usage.prompt_tokens,
        totalTokens := toString response.usage.total_tokens,
        model := response.model,
        vectorContent := emb }
      = [("prompt", Bson.str user_prompt),
         ("completion", Bson.str choice.message.content),
         ("completionTokens", Bson.str (toString response.usage.completion_tokens)),
         ("promptTokens", Bson.str (toString response.usage.prompt_tokens)),
         ("totalTokens", Bson.str (toString response.usage.total_tokens)),
         ("model", Bson.str response.model),
         ("vectorContent", Bson.vec emb)] := by
  exact ⟨cache_generation_eq_ok user_prompt emb response choice cs h, rfl⟩

/-- C5.  The only retry mechanism of the repository is the exponential
backoff decorator on generate_embeddings in the MovieLens notebook: waits
are random exponential between 1 and 10 seconds, it gives up after 20
attempts and then the error propagates, and it returns the first success
within the 20 attempts; the generate_embeddings of the other two notebooks
run a single call whose error propagates at once, and their outcome depends
only on that single call. -/
theorem C5_retry_only_on_nosql_embeddings :
    (MovieLens.wait_random_exponential_min = 1 ∧
     MovieLens.wait_random_exponential_max = 10 ∧
     MovieLens.stop_after_attempt_count = 20) ∧
    (∀ (api : EmbedApi) (text : PyInput),
      (∀ k, k < 20 → ∃ e, MovieLens.generate_embeddings_attempt api text k
          = Except.error e) →
      ∃ e, MovieLens.generate_embeddings api text = Except.error e ∧
        MovieLens.generate_embeddings_attempt api text 19 = Except.error e) ∧
    (∀ (api : EmbedApi) (text : PyInput) (k : Nat) (v : Vec),
      k < 20 →
      (∀ j, j < k → ∃ e, MovieLens.generate_embeddings_attempt api text j
          = Except.error e) →
      MovieLens.generate_embeddings_attempt api text k = Except.ok v →
      MovieLens.generate_embeddings api text = Except.ok v) ∧
    (∀ (api : EmbedApi) (text : PyInput) (e : PyError),
      api 0 text = Except.error e →
      RagChat.generate_embeddings api text = Except.error e ∧
      VectorizeLoad.generate_embeddings api text = Except.error e) ∧
    (∀ (api api2 : EmbedApi) (text : PyInput),
      (∀ t, api 0 t = api2 0 t) →
      RagChat.generate_embeddings api text = RagChat.generate_embeddings api2 text ∧
      VectorizeLoad.generate_embeddings api text
        = VectorizeLoad.generate_embeddings api2 text) := by
  refine ⟨⟨rfl, rfl, rfl⟩, ?_, ?_, ?_, ?_⟩
  · intro api text hfail
    obtain ⟨e, he⟩ := hfail 19 (by omega)
    refine ⟨e, ?_, he⟩
    unfold MovieLens.generate_embeddings retryStopAfterAttempt
    rw [show MovieLens.stop_after_attempt_count - 1 = 0 + 19 from rfl,
        retryGo_all_error (MovieLens.generate_embeddings_attempt api text) 19 0
          (fun j hj1 hj2 => hfail j (by omega))]
    simpa using he
  · intro api text k v hk hfail hok
    unfold MovieLens.generate_embeddings retryStopAfterAttempt
    exact retryGo_first_ok (MovieLens.generate_embeddings_attempt api text) v k 0
      (MovieLens.stop_after_attempt_count - 1)
      (by simp only [MovieLens.stop_after_attempt_count]; omega)
      (fun j hj1 hj2 => hfail j (by omega)) (by simpa using hok)
  · intro api text e he
    constructor
    · unfold RagChat.generate_embeddings
      rw [he]
    · unfold VectorizeLoad.generate_embeddings
      rw [he]
  · intro api api2 text hsame
    constructor
    · unfold RagChat.generate_embeddings
      rw [hsame text]
    · unfold VectorizeLoad.generate_embeddings
      rw [hsame text]

/-- C6.  Item documents are only created during ingestion: the vCore
ingestion loop appends one vectorized object per parsed object with
insert_one and leaves every previously stored document unchanged, and the
MovieLens insert_data writes each loaded document exactly once and, when the
document ids are pairwise distinct and absent from the container, appends
them all without touching any stored document. -/
theorem C6_items_created_once_never_mutated
    (dumps : VectorizeLoad.Obj → String) (embed : String → Vec)
    (coll : List VectorizeLoad.Obj) (objects : List VectorizeLoad.Obj)
    (container data : List MovieLens.CosmosDoc)
    (hdisj : ∀ d ∈ data, d.id ∉ container.map MovieLens.CosmosDoc.id)
    (hnodup : (data.map MovieLens.CosmosDoc.id).Nodup) :
    VectorizeLoad.ingestion_loop dumps embed coll objects
      = coll ++ objects.map (fun obj =>
          VectorizeLoad.setField obj "contentVector" (Bson.vec (embed (dumps obj)))) ∧
    (MovieLens.insert_data container data).upserts = data ∧
    (MovieLens.insert_data container data).container = container ++ data := by
  refine ⟨ingestion_loop_spec dumps embed objects coll, ?_, ?_⟩
  · exact insert_data_loop_upserts data container 0
  · exact insert_data_loop_container data container 0 hdisj hnodup

/-- C7.  For every query embedding and result count, vector_search issues
exactly one aggregation pipeline of two fixed stages, cosmosSearch over the
given vector with path contentVector and k equal to num_results followed by
the projection of the search score as similarityScore and of the whole
document, and returns the cursor of the database unmodified; the default
result count is 3. -/
theorem C7_vector_search_pipeline
    (aggregate : List RagChat.ItemDoc → List Bson → List RagChat.SearchResult)
    (collection : List RagChat.ItemDoc) (query_embedding : Vec)
    (num_results : Nat) :
    RagChat.vector_search aggregate collection query_embedding num_results
      = aggregate collection
        [Bson.obj [("$search", Bson.obj
            [("cosmosSearch", Bson.obj
                [("vector", Bson.vec query_embedding),
                 ("path", Bson.str "contentVector"),
                 ("k", Bson.num num_results)]),
             ("returnStoredSource", Bson.bool true)])],
         Bson.obj [("$project", Bson.obj
            [("similarityScore", Bson.obj [("$meta", Bson.str "searchScore")]),
             ("document", Bson.str "$$ROOT")])]] ∧
    RagChat.vector_search aggregate collection query_embedding
      = aggregate collection
        [Bson.obj [("$search", Bson.obj
            [("cosmosSearch", Bson.obj
                [("vector", Bson.vec query_embedding),
                 ("path", Bson.str "contentVector"),
                 ("k", Bson.num 3)]),
             ("returnStoredSource", Bson.bool true)])],
         Bson.obj [("$project", Bson.obj
            [("similarityScore", Bson.obj [("$meta", Bson.str "searchScore")]),
             ("document", Bson.str "$$ROOT")])]] := by
  exact ⟨rfl, rfl⟩

/-- C8.  insert_data upserts the loaded documents strictly sequentially: it
issues exactly one upsert per document in list order, increments the counter
once per document so that it ends at the number of documents, and prints a
progress line exactly at the counter values that are multiples of 100,
followed by the completion line. -/
theorem C8_insert_data_sequential (container data : List MovieLens.CosmosDoc) :
    (MovieLens.insert_data container data).counter = data.length ∧
    (MovieLens.insert_data container data).upserts = data ∧
    (MovieLens.insert_data container data).output
      = ((List.range' 1 data.length).filterMap fun c =>
          if c % 100 == 0
          then some ("Inserted " ++ toString c ++ " documents into collection.")
          else none)
        ++ ["Upsert completed!"] := by
  refine ⟨?_, insert_data_loop_upserts data container 0, ?_⟩
  · rw [MovieLens.insert_data, insert_data_loop_counter data container 0]
    omega
  · exact insert_data_loop_output data container 0

/-- C10.  In all three notebooks that define generate_embeddings, the
function returns exactly the embedding of the first element of the data
array of the response; any further embeddings are discarded. -/
theorem C10_first_embedding_only (api : EmbedApi) (text : PyInput)
    (d : EmbeddingDatum) (rest : List EmbeddingDatum)
    (h : api 0 text = Except.ok { data := d :: rest }) :
    RagChat.generate_embeddings api text = Except.ok d.embedding ∧
    VectorizeLoad.generate_embeddings api text = Except.ok d.embedding ∧
    MovieLens.generate_embeddings api text = Except.ok d.embedding := by
  refine ⟨?_, ?_, ?_⟩
  · unfold RagChat.generate_embeddings
    rw [h]
  · unfold VectorizeLoad.generate_embeddings
    rw [h]
  · unfold MovieLens.generate_embeddings retryStopAfterAttempt
    apply retryGo_ok
    unfold MovieLens.generate_embeddings_attempt
    rw [h]

/-- Witness for the prompt assembly claim at a concrete cache state. -/
theorem C1_prompt_assembly_witness :
    ((cacheW.map RagChat.StoredCacheDoc.oid).Pairwise (· < ·)) ∧
    RagChat.generate_completion_messages cacheW resultsW "q"
      = [{ role := "system", content := RagChat.system_prompt },
         { role := "system", content := "p2 c2" },
         { role := "system", content := "p1 c1" },
         { role := "user", content := "q" },
         { role := "system", content := "ct" }] :=
  ⟨by decide,
   ((C1_prompt_assembly chatW cacheW resultsW "q" (by decide)).1).trans (by rfl)⟩

/-- Witness for the iteration order claim at a concrete state. -/
theorem C2_query_iteration_order_witness :
    pyLower "hi" ≠ "end" ∧
    (RagChat.generate_completion chatW
        ({ docs := [], nextId := 0 } : RagChat.CacheState).docs
        (RagChat.vector_search aggW [] (embedW "hi")) "hi").choices ≠ [] ∧
    (∃ doc : RagChat.CacheDoc,
      RagChat.cache_generation "hi" (embedW "hi")
          (RagChat.generate_completion chatW
            ({ docs := [], nextId := 0 } : RagChat.CacheState).docs
            (RagChat.vector_search aggW [] (embedW "hi")) "hi")
        = Except.ok doc ∧
      RagChat.qa_loop embedW aggW [] chatW ["hi"] { docs := [], nextId := 0 }
        = Except.map (fun r =>
            (RagChat.Event.embed "hi" ::
             RagChat.Event.search (embedW "hi") ::
             RagChat.Event.complete (RagChat.generate_completion_messages
               ({ docs := [], nextId := 0 } : RagChat.CacheState).docs
               (RagChat.vector_search aggW [] (embedW "hi")) "hi") ::
             RagChat.Event.insert doc :: r.1, r.2))
            (RagChat.qa_loop embedW aggW [] chatW []
              (RagChat.insert_one { docs := [], nextId := 0 } doc))) :=
  ⟨by decide, by decide,
   C2_query_iteration_order embedW aggW [] chatW "hi" []
     { docs := [], nextId := 0 } (by decide) (by decide)⟩

/-- Witness for the insert only cache claim on a concrete run. -/
theorem C3_cache_insert_only_witness :
    (RagChat.qa_loop embedW aggW [] chatW ["hi"] { docs := [], nextId := 0 }
      = Except.ok (trW3, finW3)) ∧
    ((∃ newDocs, finW3.docs
          = ({ docs := [], nextId := 0 } : RagChat.CacheState).docs ++ newDocs ∧
        newDocs.map RagChat.StoredCacheDoc.doc = RagChat.insertedDocs trW3) ∧
     (RagChat.insertedDocs trW3).length = (trW3.filter RagChat.isEmbedEvent).length) :=
  ⟨rfl,
   C3_cache_insert_only embedW aggW [] chatW ["hi"]
     { docs := [], nextId := 0 } trW3 finW3 rfl⟩

/-- Witness for the cache schema claim. -/
theorem C4_cache_document_schema_witness :
    respW.choices = [{ message := { content := "ans" } }] ∧
    (RagChat.cache_generation "q" [1] respW = Except.ok docW4 ∧
     RagChat.CacheDoc.fields docW4
       = [("prompt", Bson.str "q"), ("completion", Bson.str "ans"),
          ("completionTokens", Bson.str "1"), ("promptTokens", Bson.str "2"),
          ("totalTokens", Bson.str "3"), ("model", Bson.str "gpt"),
          ("vectorContent", Bson.vec [1])]) :=
  ⟨rfl, C4_cache_document_schema "q" [1] respW { message := { content := "ans" } } [] rfl⟩

/-- Witness for the retry policy claim on concrete oracles. -/
theorem C5_retry_only_on_nosql_embeddings_witness :
    (1 : Nat) < 20 ∧
    MovieLens.generate_embeddings apiRetryW (PyInput.str "q") = Except.ok [7] ∧
    RagChat.generate_embeddings apiFailW (PyInput.str "q")
      = Except.error (PyError.api "boom") := by
  refine ⟨by omega, ?_, ?_⟩
  · exact C5_retry_only_on_nosql_embeddings.2.2.1 apiRetryW (PyInput.str "q") 1 [7]
      (by omega)
      (fun j hj => by
        have hj0 : j = 0 := by omega
        subst hj0
        exact ⟨PyError.api "throttle", rfl⟩)
      rfl
  · exact (C5_retry_only_on_nosql_embeddings.2.2.2.1 apiFailW (PyInput.str "q")
      (PyError.api "boom") rfl).1

/-- Witness for the ingestion claim on concrete data. -/
theorem C6_items_created_once_never_mutated_witness :
    (∀ d ∈ dataW, d.id ∉ ([] : List MovieLens.CosmosDoc).map MovieLens.CosmosDoc.id) ∧
    ((dataW.map MovieLens.CosmosDoc.id).Nodup) ∧
    (VectorizeLoad.ingestion_loop dumpsW embedW [] objectsW
        = [] ++ objectsW.map (fun obj =>
            VectorizeLoad.setField obj "contentVector" (Bson.vec (embedW (dumpsW obj)))) ∧
     (MovieLens.insert_data [] dataW).upserts = dataW ∧
     (MovieLens.insert_data [] dataW).container = [] ++ dataW) :=
  ⟨by decide, by decide,
   C6_items_created_once_never_mutated dumpsW embedW [] objectsW [] dataW
     (by decide) (by decide)⟩

/-- Witness for the first embedding claim on a two element response. -/
theorem C10_first_embedding_only_witness :
    apiTwoW 0 (PyInput.list ["a", "b"])
      = Except.ok { data := [{ embedding := [3] }, { embedding := [4] }] } ∧
    (RagChat.generate_embeddings apiTwoW (PyInput.list ["a", "b"]) = Except.ok [3] ∧
     VectorizeLoad.generate_embeddings apiTwoW (PyInput.list ["a", "b"]) = Except.ok [3] ∧
     MovieLens.generate_embeddings apiTwoW (PyInput.list ["a", "b"]) = Except.ok [3]) :=
  ⟨rfl, C10_first_embedding_only apiTwoW (PyInput.list ["a", "b"])
    { embedding := [3] } [{ embedding := [4] }] rfl⟩

/-- Witness for the termination claim with an uppercase terminator. -/
theorem C9_loop_terminates_on_end_witness :
    (∀ i ∈ ["hi"], pyLower i ≠ "end") ∧ pyLower "END" = "end" ∧
    (RagChat.qa_loop embedW aggW [] chatW (["hi"] ++ "END" :: ["x"])
        { docs := [], nextId := 0 }
      = RagChat.qa_loop embedW aggW [] chatW ["hi"] { docs := [], nextId := 0 } ∧
     ∀ tr fin,
       RagChat.qa_loop embedW aggW [] chatW (["hi"] ++ "END" :: ["x"])
           { docs := [], nextId := 0 }
         = Except.ok (tr, fin) →
       RagChat.Event.embed "END" ∉ tr ∧
       ∀ d, RagChat.Event.insert d ∈ tr → d.prompt ≠ "END") :=
  ⟨by decide, by decide,
   C9_loop_terminates_on_end embedW aggW [] chatW ["hi"] ["x"] "END"
     { docs := [], nextId := 0 } (by decide) (by decide)⟩
